import Mathlib

/-!
# Verification of the observer capture pipeline (`observer_service.py`)

Shallow embedding of the observer service: the key-buffer debouncer
(`_flush_key_buffer`, `_on_press`), the screenshot worker
(`_safe_grab_region`, `_screenshot_worker`), the log writer
(`_log_worker`), the audio session (`_record_audio_task`) and the
controller's supervising loop and shutdown sequence
(`start_observer_func`).

Modelling conventions:
* Python float timestamps (`time.time()`) are modelled as `Int` seconds;
  `int(t)` on an already-integer time is the identity.  The Python
  truthiness test `if _last_key_time` is `false` for `None` and for `0`,
  which `flushTimestamp` reproduces.
* Queues are `List (Option α)`: `none` is the `None` stop sentinel.
* The shared `_observer_stop_event` is a `Bool` parameter (`stopSet`);
  during the shutdown sequence it is always `true`, because
  `stop_observer_func` sets it before the controller pushes sentinels.
* Fallible image/audio captures are oracles: per-item `Bool` outcomes.
-/

namespace Observer

/-- The event records placed on the log queue, one line each in the durable
log (`data/observer_log.jsonl`).  Field order follows the Python dicts. -/
inductive Event where
  | click (timestamp : Int) (button : String) (x y : Int)
      (fullscreenImg regionImg : Option String)
  | type (timestamp : Int) (text : String)
  | keyPress (timestamp : Int) (key : String)
  | audioCommand (timestamp : Int) (audioFile : String) (duration : ℚ)
  deriving DecidableEq

/-- The shared mutable state touched by the key callbacks: `_key_buffer`,
`_last_key_time`, `_buffer_flush_timer` (modelled as whether a timer is
pending), `_is_recording`, `_stop_recording_flag`. -/
structure KeyState where
  keyBuffer : List Char
  lastKeyTime : Option Int
  timerPending : Bool
  isRecording : Bool
  stopRecordingFlag : Bool
  deriving DecidableEq

/-- `int(_last_key_time) if _last_key_time else int(time.time())`:
Python truthiness makes both `None` and time `0` fall back to `now`. -/
def flushTimestamp (now : Int) : Option Int → Int
  | some t => if t = 0 then now else t
  | none => now

/-- `_flush_key_buffer`: cancel any pending timer; if the buffer is
non-empty, emit one `type` event whose text joins the buffer and whose
timestamp comes from `_last_key_time`, and clear the buffer.  Returns the
new state and the events put on the log queue. -/
def flushKeyBuffer (now : Int) (s : KeyState) : KeyState × List Event :=
  let s1 : KeyState := { s with timerPending := false }
  if s1.keyBuffer = [] then (s1, [])
  else
    ({ s1 with keyBuffer := [] },
     [Event.type (flushTimestamp now s1.lastKeyTime) (String.mk s1.keyBuffer)])

/-- A key delivered to `_on_press`: the push-to-talk key
(`keyboard.Key.ctrl_r`), a `KeyCode` whose `char` may be `None`
(a modifier), or a `Key` enum member whose `.char` access raises
`AttributeError` (a special key, carried by its enum name). -/
inductive Key where
  | ptt
  | charKey (c : Option Char)
  | special (name : String)
  deriving DecidableEq

/-- `' ' if key == keyboard.Key.space else f'[{str(key).split(".")[-1]}]'`. -/
def specialKeyRepr (name : String) : String :=
  if name = "space" then " " else "[" ++ name ++ "]"

/-- `_on_press`: returns the new state, the events put on the log queue
(in queue order), and whether a recording thread was spawned.  The first
statement of the handler sets `_last_key_time` for every key. -/
def onPress (now : Int) (k : Key) (s : KeyState) :
    KeyState × List Event × Bool :=
  let s0 : KeyState := { s with lastKeyTime := some now }
  match k with
  | .ptt =>
    if s0.isRecording then (s0, [], false)
    else
      let fr := flushKeyBuffer now s0
      ({ fr.1 with isRecording := true, stopRecordingFlag := false },
       fr.2, true)
  | .charKey none =>
    let fr := flushKeyBuffer now s0
    (fr.1, fr.2, false)
  | .charKey (some c) =>
    ({ s0 with keyBuffer := s0.keyBuffer ++ [c], timerPending := true },
     [], false)
  | .special name =>
    let fr := flushKeyBuffer now s0
    ({ fr.1 with timerPending := true },
     fr.2 ++ [Event.keyPress now (specialKeyRepr name)], false)

/-- `REGION_SIZE` from the configuration block. -/
def REGION_SIZE : Int := 100

/-- `half_size = REGION_SIZE // 2`. -/
def halfSize : Int := REGION_SIZE / 2

/-- One `mss` monitor record. -/
structure Monitor where
  top : Int
  left : Int
  width : Int
  height : Int
  deriving DecidableEq

/-- `top = max(monitor["top"], min(y - half_size, monitor["top"] + monitor["height"] - REGION_SIZE))`. -/
def regionTop (m : Monitor) (y : Int) : Int :=
  max m.top (min (y - halfSize) (m.top + m.height - REGION_SIZE))

/-- `left = max(monitor["left"], min(x - half_size, monitor["left"] + monitor["width"] - REGION_SIZE))`. -/
def regionLeft (m : Monitor) (x : Int) : Int :=
  max m.left (min (x - halfSize) (m.left + m.width - REGION_SIZE))

/-- The region dict passed to `sct.grab` in `_safe_grab_region`. -/
def safeRegion (m : Monitor) (x y : Int) : Monitor :=
  ⟨regionTop m y, regionLeft m x, REGION_SIZE, REGION_SIZE⟩

/-- `AUDIO_SAMPLE_RATE` from the configuration block. -/
def AUDIO_SAMPLE_RATE : ℚ := 16000

/-- `round(q, 2)`: rounding to two decimal places. -/
def roundTo2 (q : ℚ) : ℚ := ((round (100 * q) : ℤ) : ℚ) / 100

/-- `os.path.join(DATA_DIR, f"{timestamp}_audio.wav")` with separators
normalized. -/
def audioPath (ts : Int) : String := "data/raw/" ++ toString ts ++ "_audio.wav"

/-- `_record_audio_task` after the stream closes: `frames` is the list of
chunk lengths appended by the audio callback (so `frames.sum` is the total
sample count of the concatenated recording), `saveOk` is whether
`write_wav` succeeded.  Only with at least one frame and a successful save
is one `audio_command` event put on the log queue. -/
def recordAudioTask (ts : Int) (frames : List Nat) (saveOk : Bool) :
    List Event :=
  if frames = [] then []
  else if saveOk then
    [Event.audioCommand ts (audioPath ts)
      (roundTo2 ((frames.sum : ℚ) / AUDIO_SAMPLE_RATE))]
  else []

/-- Recognizer for `key_press` events. -/
def isKeyPressEvent : Event → Bool
  | .keyPress _ _ => true
  | _ => false

/-- The item `_on_click` puts on the screenshot queue. -/
structure ClickData where
  timestamp : Int
  button : String
  x : Int
  y : Int
  deriving DecidableEq

/-- Per-item outcome of the fallible captures in `_screenshot_worker`:
whether `sct.shot` succeeded, whether `_safe_grab_region` returned an
image (monitor detected and `sct.grab` succeeded), and whether
`mss.tools.to_png` succeeded. -/
structure CaptureOutcome where
  fsOk : Bool
  regionGrabOk : Bool
  regionSaveOk : Bool
  deriving DecidableEq

/-- `os.path.join(DATA_DIR, f"{timestamp}_fullscreen.png")`, normalized. -/
def fullscreenPath (ts : Int) : String :=
  "data/raw/" ++ toString ts ++ "_fullscreen.png"

/-- `os.path.join(DATA_DIR, f"{timestamp}_region.png")`, normalized. -/
def regionPath (ts : Int) : String :=
  "data/raw/" ++ toString ts ++ "_region.png"

/-- The body of `_screenshot_worker` for one dequeued item: each failed
capture turns its path into `none` and reports a warning on the output
channel; the `click` event is built and forwarded unconditionally.
Returns the event put on the log queue and the warnings emitted. -/
def processClick (oc : CaptureOutcome) (cd : ClickData) :
    Event × List String :=
  let fs :=
    if oc.fsOk then (some (fullscreenPath cd.timestamp), ([] : List String))
    else (none, ["Error capturing full screen"])
  let rg :=
    if oc.regionGrabOk then
      if oc.regionSaveOk then (some (regionPath cd.timestamp), ([] : List String))
      else (none, ["Error saving region image"])
    else (none, ["Error grabbing region"])
  (Event.click cd.timestamp cd.button cd.x cd.y fs.1 rg.1, fs.2 ++ rg.2)

/-- The `_screenshot_worker` loop: before every dequeue it re-checks
`_observer_stop_event` and exits when set; a dequeued `None` sentinel
ends the loop; otherwise the item is processed and its `click` event
emitted.  Returns the events forwarded to the log queue and the items
left on the screenshot queue on exit. -/
def screenshotWorkerDrain (stopSet : Bool) :
    List (Option (CaptureOutcome × ClickData)) →
    List Event × List (Option (CaptureOutcome × ClickData))
  | [] => ([], [])
  | item :: rest =>
    if stopSet then ([], item :: rest)
    else
      match item with
      | none => ([], rest)
      | some (oc, cd) =>
        let r := screenshotWorkerDrain stopSet rest
        ((processClick oc cd).1 :: r.1, r.2)

/-- The `_log_worker` loop: before every dequeue it re-checks
`_observer_stop_event` and exits when set; a dequeued `None` sentinel
ends the loop; otherwise the event is written to the durable log.
Returns the events written and the items left on the log queue on
exit. -/
def logWorkerDrain (stopSet : Bool) :
    List (Option Event) → List Event × List (Option Event)
  | [] => ([], [])
  | item :: rest =>
    if stopSet then ([], item :: rest)
    else
      match item with
      | none => ([], rest)
      | some e =>
        let r := logWorkerDrain stopSet rest
        (e :: r.1, r.2)

/-- The observer's shared queues, debouncer state and durable log as seen
by the controller. -/
structure ControllerState where
  screenshotQueue : List (Option (CaptureOutcome × ClickData))
  logQueue : List (Option Event)
  keyState : KeyState
  written : List Event
  deriving DecidableEq

/-- The cleanup actions at the tail of `start_observer_func`, in program
order. -/
inductive ShutdownStep where
  | stopListeners
  | pushSentinels
  | joinWorkers
  | finalFlush
  | reportCompletion
  deriving DecidableEq

/-- The cleanup sequence of `start_observer_func` once its supervising
loop has observed the stop signal.  `stop_observer_func` sets
`_observer_stop_event` before this code runs, so both workers execute
with `stopSet = true` while being joined.  Events the screenshot worker
still forwards go to the log queue; events the final flush emits are
appended to the log queue after both workers have been joined. -/
def controllerShutdown (now : Int) (s : ControllerState) :
    ControllerState × List ShutdownStep :=
  let s2 : ControllerState :=
    { s with screenshotQueue := s.screenshotQueue ++ [none],
             logQueue := s.logQueue ++ [none] }
  let sw := screenshotWorkerDrain true s2.screenshotQueue
  let s3 : ControllerState :=
    { s2 with screenshotQueue := sw.2,
              logQueue := s2.logQueue ++ sw.1.map Option.some }
  let lw := logWorkerDrain true s3.logQueue
  let s4 : ControllerState :=
    { s3 with logQueue := lw.2, written := s3.written ++ lw.1 }
  let fr := flushKeyBuffer now s4.keyState
  let s5 : ControllerState :=
    { s4 with keyState := fr.1,
              logQueue := s4.logQueue ++ fr.2.map Option.some }
  (s5, [ShutdownStep.stopListeners, ShutdownStep.pushSentinels,
        ShutdownStep.joinWorkers, ShutdownStep.finalFlush,
        ShutdownStep.reportCompletion])

/-- The supervising loop of `start_observer_func`:
`while not _observer_stop_event.is_set(): time.sleep(1)`, fuel-bounded.
Returns the tick at which the loop fell through to cleanup, or `none`
when the stop signal was not observed within the given fuel. -/
def superviseLoop (stopSet : Nat → Bool) : Nat → Nat → Option Nat
  | _, 0 => none
  | tick, fuel + 1 =>
    if stopSet tick then some tick
    else superviseLoop stopSet (tick + 1) fuel

/-- A stop signal that is never set. -/
def neverStop : Nat → Bool := fun _ => false

/-- A stop signal that is already set. -/
def alwaysStop : Nat → Bool := fun _ => true

end Observer

namespace Observer

/-- Helper: with the stop event set, `_log_worker` exits at the next
while-condition check, writing nothing and leaving the queue intact. -/
theorem logWorkerDrain_stop (q : List (Option Event)) :
    logWorkerDrain true q = ([], q) := by
  cases q <;> simp [logWorkerDrain]

/-- Helper: with the stop event set, `_screenshot_worker` exits at the
next while-condition check, forwarding nothing. -/
theorem screenshotWorkerDrain_stop
    (q : List (Option (CaptureOutcome × ClickData))) :
    screenshotWorkerDrain true q = ([], q) := by
  cases q <;> simp [screenshotWorkerDrain]

end Observer

namespace Observer

/-- C5 counterexample: on a 50×50 monitor at the origin, the click
`(10, 10)` is inside the monitor bounds, yet the clamped region's top row
span `[0, 100)` overruns the monitor's vertical span `[0, 50)`: the claim
as stated fails when the monitor is smaller than the 100×100 region. -/
theorem region_clamp_small_monitor_cex :
    (0 : Int) ≤ 10 ∧ (10 : Int) < 0 + 50 ∧
    (0 : Int) ≤ 10 ∧ (10 : Int) < 0 + 50 ∧
    ¬ (regionTop ⟨0, 0, 50, 50⟩ 10 + 100 ≤ 0 + 50) := by
  refine ⟨by norm_num, by norm_num, by norm_num, by norm_num, ?_⟩
  simp [regionTop, halfSize, REGION_SIZE]

/-- C5 (amended): for any monitor at least 100×100 and any click `(x, y)`
inside its bounds, the clamped 100×100 region computed by
`_safe_grab_region` lies entirely within
`[left, left+width) × [top, top+height)`. -/
theorem region_clamp_contained (m : Monitor) (x y : Int)
    (hw : 100 ≤ m.width) (hh : 100 ≤ m.height)
    (hx1 : m.left ≤ x) (hx2 : x < m.left + m.width)
    (hy1 : m.top ≤ y) (hy2 : y < m.top + m.height) :
    m.top ≤ regionTop m y ∧ regionTop m y + 100 ≤ m.top + m.height ∧
    m.left ≤ regionLeft m x ∧ regionLeft m x + 100 ≤ m.left + m.width := by
  unfold regionTop regionLeft halfSize REGION_SIZE
  omega

/-- C5 witness: the amended containment at a 1920×1080 monitor with a
click at `(100, 200)`. -/
theorem region_clamp_contained_witness :
    (0 : Int) ≤ regionTop ⟨0, 0, 1920, 1080⟩ 200 ∧
    regionTop ⟨0, 0, 1920, 1080⟩ 200 + 100 ≤ 0 + 1080 ∧
    (0 : Int) ≤ regionLeft ⟨0, 0, 1920, 1080⟩ 100 ∧
    regionLeft ⟨0, 0, 1920, 1080⟩ 100 + 100 ≤ 0 + 1920 :=
  region_clamp_contained ⟨0, 0, 1920, 1080⟩ 100 200
    (by norm_num) (by norm_num) (by norm_num) (by norm_num)
    (by norm_num) (by norm_num)

/-- Initial debouncer state, as at module load. -/
def initKeyState : KeyState := ⟨[], none, false, false, false⟩

/-- The state after typing `'a'` at time 10 and `'b'` at time 20. -/
def stateAfterAB : KeyState :=
  (onPress 20 (Key.charKey (some 'b'))
    ((onPress 10 (Key.charKey (some 'a')) initKeyState).1)).1

/-- C3 counterexample: after `'a'` at time 10 and `'b'` at time 20, the
flush (here at time 25, when the idle timer fires) emits `Type` with
timestamp 20 — the time of the *last* keystroke, because `_on_press`
overwrites `_last_key_time` on every key — not the anchor timestamp 10 of
the first key that entered the empty buffer, as the claim states. -/
theorem type_timestamp_last_key_cex :
    (flushKeyBuffer 25 stateAfterAB).2 = [Event.type 20 "ab"] ∧
    (flushKeyBuffer 25 stateAfterAB).2 ≠ [Event.type 10 "ab"] := by
  constructor
  · rfl
  · decide

/-- C3 (amended): flushing a non-empty buffer emits exactly one `Type`
event whose text is the concatenated buffer contents and whose timestamp
is `_last_key_time` — the time of the most recent key press of any kind
(falling back to the flush time when no key time is recorded) — and
clears the buffer and cancels the timer. -/
theorem flush_type_event_uses_last_key_time (now : Int) (s : KeyState)
    (h : s.keyBuffer ≠ []) :
    (flushKeyBuffer now s).2 =
      [Event.type (flushTimestamp now s.lastKeyTime) (String.mk s.keyBuffer)] ∧
    (flushKeyBuffer now s).1.keyBuffer = [] ∧
    (flushKeyBuffer now s).1.timerPending = false := by
  simp [flushKeyBuffer, h]

/-- C3 witness: flushing the buffer `['h','i']` with last key time 12
emits one `Type("hi")` event stamped 12. -/
theorem flush_type_event_uses_last_key_time_witness :
    (flushKeyBuffer 25 ⟨['h', 'i'], some 12, true, false, false⟩).2 =
      [Event.type 12 "hi"] := by
  have h := flush_type_event_uses_last_key_time 25
    ⟨['h', 'i'], some 12, true, false, false⟩ (by decide)
  simpa [flushTimestamp] using h.1

/-- C4: a special key first flushes the buffer (one `Type` event when
the buffer is non-empty, placed on the log queue first) and then emits
exactly one `KeyPress` event with the bracketed canonical name, space
being represented as a literal space: the pending typed text is sequenced
strictly before the interrupting key event. -/
theorem special_key_flush_then_keypress (now : Int) (name : String)
    (s : KeyState) :
    (onPress now (Key.special name) s).2.1 =
      (if s.keyBuffer = [] then []
       else [Event.type now (String.mk s.keyBuffer)]) ++
      [Event.keyPress now (specialKeyRepr name)] ∧
    specialKeyRepr "space" = " " ∧ specialKeyRepr "enter" = "[enter]" := by
  refine ⟨?_, by decide, by decide⟩
  by_cases h : s.keyBuffer = [] <;>
    simp [onPress, flushKeyBuffer, flushTimestamp, h]

/-- C9: a key whose `char` attribute is `None` (a bare modifier) only
flushes the buffer: the handler's result is exactly the flush's, it
enqueues no `key_press` event for the modifier itself and spawns no
recording thread. -/
theorem modifier_key_flush_only (now : Int) (s : KeyState) :
    onPress now (Key.charKey none) s =
      ((flushKeyBuffer now { s with lastKeyTime := some now }).1,
       (flushKeyBuffer now { s with lastKeyTime := some now }).2, false) ∧
    (onPress now (Key.charKey none) s).2.1.countP isKeyPressEvent = 0 := by
  constructor
  · rfl
  · by_cases h : s.keyBuffer = [] <;>
      simp [onPress, flushKeyBuffer, h, isKeyPressEvent]

/-- C10: flushing an empty buffer enqueues nothing and only cancels the
pending timer; a second consecutive flush always enqueues nothing (so two
flushes emit at most one `Type`, as does a single flush); and a `Type`
event with empty text is never emitted. -/
theorem flush_empty_noop_and_idempotent (now now2 : Int) (s : KeyState) :
    (s.keyBuffer = [] →
      flushKeyBuffer now s = ({ s with timerPending := false }, [])) ∧
    (flushKeyBuffer now2 (flushKeyBuffer now s).1).2 = [] ∧
    (flushKeyBuffer now s).2.length ≤ 1 ∧
    (∀ ts, Event.type ts "" ∉ (flushKeyBuffer now s).2) := by
  by_cases h : s.keyBuffer = [] <;>
    simp [flushKeyBuffer, h, String.ext_iff]

/-- C10 witness: with an empty buffer and a pending timer, one flush at
time 3 returns no events and only clears the timer, and a second flush at
time 4 returns no events either. -/
theorem flush_empty_noop_and_idempotent_witness :
    flushKeyBuffer 3 ⟨[], none, true, false, false⟩ =
      (⟨[], none, false, false, false⟩, []) ∧
    (flushKeyBuffer 4 (flushKeyBuffer 3 ⟨[], none, true, false, false⟩).1).2
      = [] := by
  have h := flush_empty_noop_and_idempotent 3 4 ⟨[], none, true, false, false⟩
  exact ⟨h.1 rfl, h.2.1⟩

/-- C7 counterexample: a press/release cycle that captured one
160-sample chunk but whose `write_wav` raised emits zero `audio_command`
events even though frames were captured (line 233's `except` skips the
`put`), refuting "exactly zero when no audio frames were captured,
otherwise one". -/
theorem audio_save_failure_emits_nothing_cex :
    recordAudioTask 6 [160] false = [] ∧ ([160] : List Nat) ≠ [] :=
  ⟨rfl, by decide⟩

/-- C7 (amended): a push-to-talk press while already recording changes no
recording state and spawns no second recording task (only
`_last_key_time` is updated, as for every key); and one press/release
cycle's audio task emits at most one `audio_command` event — exactly
zero when no frames were captured or the waveform file could not be
written, and exactly one when frames were captured and the save
succeeded, with duration `total_samples / sample_rate` rounded to two
decimals. -/
theorem ptt_idempotent_at_most_one_audio (now ts : Int) (s : KeyState)
    (frames : List Nat) (saveOk : Bool) (hr : s.isRecording = true) :
    onPress now Key.ptt s = ({ s with lastKeyTime := some now }, [], false) ∧
    (recordAudioTask ts frames saveOk).length ≤ 1 ∧
    (frames = [] → recordAudioTask ts frames saveOk = []) ∧
    (frames ≠ [] → saveOk = true →
      recordAudioTask ts frames saveOk =
        [Event.audioCommand ts (audioPath ts)
          (roundTo2 ((frames.sum : ℚ) / AUDIO_SAMPLE_RATE))]) := by
  refine ⟨by simp [onPress, hr], ?_, ?_, ?_⟩ <;>
    by_cases h : frames = [] <;> cases saveOk <;>
      simp [recordAudioTask, h]

/-- C7 witness: a press at time 5 in a recording state is a no-op apart
from `_last_key_time`, and a cycle that captured one 160-sample chunk
emits at most one event. -/
theorem ptt_idempotent_at_most_one_audio_witness :
    onPress 5 Key.ptt ⟨[], some 1, false, true, false⟩ =
      (⟨[], some 5, false, true, false⟩, [], false) ∧
    (recordAudioTask 6 [160] true).length ≤ 1 := by
  have h := ptt_idempotent_at_most_one_audio 5 6
    ⟨[], some 1, false, true, false⟩ [160] true rfl
  exact ⟨h.1, h.2.1⟩

/-- C1: during shutdown the stop event is set by `stop_observer_func`
*before* the controller pushes the `None` sentinel, so the log worker's
`while not _observer_stop_event.is_set()` check makes it exit without
dequeuing: with two events queued ahead of the sentinel it writes
nothing, whereas the sentinel-drain branch of the very same loop (stop
event not set) would have written both events, showing the drain
behaviour the claim describes is unreachable during shutdown. -/
theorem log_worker_exits_without_draining :
    (logWorkerDrain true
      [some (Event.type 10 "hi"), some (Event.keyPress 11 "[enter]"), none]).1
      = [] ∧
    (logWorkerDrain false
      [some (Event.type 10 "hi"), some (Event.keyPress 11 "[enter]"), none]).1
      = [Event.type 10 "hi", Event.keyPress 11 "[enter]"] := by
  constructor <;> rfl

/-- A controller state at the moment the supervising loop observes the
stop signal: empty queues and the trailing text `"hi"` (last key at
time 10) still in the key buffer. -/
def shutdownCexStart : ControllerState :=
  ⟨[], [], ⟨['h', 'i'], some 10, true, false, false⟩, []⟩

/-- C2 counterexample: with trailing text `"hi"` buffered at shutdown,
the cleanup sequence leaves the durable log empty — the final flush's
`Type("hi")` event is put on the log queue after the Log Writer has
already been joined, so it never appears in the durable log, refuting
"the final flush causes any trailing buffered typed text to appear in
the durable log (it is not lost)". -/
theorem final_flush_not_durably_written_cex :
    shutdownCexStart.keyState.keyBuffer ≠ [] ∧
    (controllerShutdown 20 shutdownCexStart).1.written = [] ∧
    some (Event.type 10 "hi") ∈
      (controllerShutdown 20 shutdownCexStart).1.logQueue := by
  refine ⟨by decide, rfl, by decide⟩

/-- C2 (amended): the controller executes exactly the five cleanup steps
strictly in order — stop listeners, push sentinels, join the two
workers, final key-buffer flush, report completion — and the final flush
turns any trailing buffered text into a `Type` event on the log queue;
but nothing is durably written during the whole sequence (the joined
workers exited on the already-set stop event), so the trailing text
remains enqueued and does not reach the durable log. -/
theorem controller_shutdown_order_flush_enqueued (now : Int)
    (s : ControllerState) (h : s.keyState.keyBuffer ≠ []) :
    (controllerShutdown now s).2 =
      [ShutdownStep.stopListeners, ShutdownStep.pushSentinels,
       ShutdownStep.joinWorkers, ShutdownStep.finalFlush,
       ShutdownStep.reportCompletion] ∧
    (controllerShutdown now s).1.written = s.written ∧
    some (Event.type (flushTimestamp now s.keyState.lastKeyTime)
           (String.mk s.keyState.keyBuffer)) ∈
      (controllerShutdown now s).1.logQueue := by
  unfold controllerShutdown
  simp only [logWorkerDrain_stop, screenshotWorkerDrain_stop,
    List.map_nil, List.append_nil]
  refine ⟨trivial, trivial, ?_⟩
  simp [flushKeyBuffer, h]

/-- C2 witness: the amended statement at a concrete shutdown with the
buffer `['o','k']` and last key time 7. -/
theorem controller_shutdown_order_flush_enqueued_witness :
    (controllerShutdown 20 ⟨[], [], ⟨['o', 'k'], some 7, false, false, false⟩,
        []⟩).2 =
      [ShutdownStep.stopListeners, ShutdownStep.pushSentinels,
       ShutdownStep.joinWorkers, ShutdownStep.finalFlush,
       ShutdownStep.reportCompletion] ∧
    (controllerShutdown 20 ⟨[], [], ⟨['o', 'k'], some 7, false, false, false⟩,
        []⟩).1.written = [] := by
  have h := controller_shutdown_order_flush_enqueued 20
    ⟨[], [], ⟨['o', 'k'], some 7, false, false, false⟩, []⟩ (by decide)
  exact ⟨h.1, h.2.1⟩

/-- C6: the screenshot worker emits exactly one `click` event per
dequeued item — a run over any item list, with arbitrary per-item
capture failures, forwards exactly the per-item events in order, so no
failure drops an event or terminates the worker — and each event carries
the item's timestamp, button and coordinates, with a path field `none`
exactly when its capture failed, each failure producing one warning on
the output channel. -/
theorem screenshot_worker_one_click_per_item
    (items : List (CaptureOutcome × ClickData))
    (oc : CaptureOutcome) (cd : ClickData) :
    (screenshotWorkerDrain false (items.map Option.some)).1 =
      items.map (fun p => (processClick p.1 p.2).1) ∧
    (processClick oc cd).1 =
      Event.click cd.timestamp cd.button cd.x cd.y
        (if oc.fsOk then some (fullscreenPath cd.timestamp) else none)
        (if oc.regionGrabOk && oc.regionSaveOk
         then some (regionPath cd.timestamp) else none) ∧
    (processClick oc cd).2.length =
      (if oc.fsOk then 0 else 1) +
      (if oc.regionGrabOk then (if oc.regionSaveOk then 0 else 1) else 1) := by
  refine ⟨?_, ?_⟩
  · induction items with
    | nil => rfl
    | cons p rest ih => simp [screenshotWorkerDrain, ih]
  · cases hf : oc.fsOk <;> cases hg : oc.regionGrabOk <;>
      cases hs : oc.regionSaveOk <;> simp [processClick, hf, hg, hs]

/-- C8 counterexample: with the stop signal never set, the supervising
loop of `start_observer_func` does not fall through within 120 ticks —
`start` runs this loop on its caller's execution context, so its return
is conditioned on the stop signal, refuting "returns immediately". -/
theorem supervise_loop_never_returns_cex :
    superviseLoop neverStop 0 120 = none := by decide

/-- C8 (amended): `start(output_sink)` blocks — its supervising loop runs
on the caller's execution context and falls through to cleanup (and
hence to `start`'s return) exactly when the stop signal is observed:
any exit tick has the stop signal set, and a set signal exits at that
tick. -/
theorem supervise_loop_exit_iff_stop (f : Nat → Bool) (tick fuel t : Nat) :
    (superviseLoop f tick fuel = some t → f t = true) ∧
    (f tick = true → superviseLoop f tick (fuel + 1) = some tick) := by
  constructor
  · induction fuel generalizing tick with
    | zero => intro h; simp [superviseLoop] at h
    | succ n ih =>
      intro h
      rw [superviseLoop] at h
      by_cases hs : f tick = true
      · rw [if_pos hs] at h
        cases h
        exact hs
      · rw [if_neg hs] at h
        exact ih _ h
  · intro h
    simp [superviseLoop, h]

/-- C8 witness: with the stop signal already set, the loop exits at
tick 0, and every exit implies the signal was set there. -/
theorem supervise_loop_exit_iff_stop_witness :
    alwaysStop 0 = true ∧ superviseLoop alwaysStop 0 2 = some 0 := by
  have h := supervise_loop_exit_iff_stop alwaysStop 0 1 0
  exact ⟨h.1 (by decide), h.2 (h.1 (by decide))⟩

end Observer
